import Mathlib

/-!
Shallow embedding of the two modules of this repository:

* `spyder/widgets/panels/scrollflag.py` — the scroll flag area panel.  Its
  coordinate mathematics (`get_scrollbar_value_height`, `get_scale_factor`,
  `value_to_position`, `position_to_value`, `make_flag_qrect`,
  `make_slider_range`) and the per-line mark painting of `paintEvent` are
  embedded below over exact rational arithmetic.  Python's `/` raises
  `ZeroDivisionError` on a zero denominator, so division is embedded as an
  `Option`-valued operation and every function built on it propagates the
  failure, exactly as an uncaught Python exception would.

* `spyder/widgets/jupyter_qtconsole/shell.py` — the shell widget.
  `set_ipyclient` and `reset_namespace` are embedded as explicit state
  transformers: the Qt signal connection list of `exit_requested` becomes a
  list of connected client handles (Qt `connect` appends a connection), and
  the execution backend becomes the list of directives passed to `execute`.
-/

/-- Rectangle modelling Qt's `QRect`, kept over exact rational coordinates
so that the geometry computed by the panel is embedded without rounding. -/
structure Rect where
  x : ℚ
  y : ℚ
  width : ℚ
  height : ℚ
  deriving DecidableEq, Repr

/-- Python's true division `a / b`: raises `ZeroDivisionError` when `b = 0`,
modelled by `none`; otherwise exact rational division. -/
def pydiv (a b : ℚ) : Option ℚ :=
  if b = 0 then none else some (a / b)

/-- The state the `ScrollFlagArea` panel reads from its editor at paint time:
the vertical scrollbar's visibility (`slider` property), the scrollbar groove
geometry (`offset` property = `groove_rect.y()`, `grooveHeight` =
`get_scrollbar_position_height` = `groove_rect.height()`), the scrollbar range
(`minimum`, `maximum`, `pageStep`), and the editor's per-line rendered block
geometry used by the unscaled branch of `make_flag_qrect` (`blockTop L` =
`blockBoundingGeometry(block).translated(contentOffset()).top()` for the block
of line `L`, `blockHeight L` = `blockBoundingRect(block).height()`). -/
structure ScrollFlagArea where
  slider : Bool
  offset : ℚ
  grooveHeight : ℚ
  minimum : ℚ
  maximum : ℚ
  pageStep : ℚ
  blockTop : ℕ → ℚ
  blockHeight : ℕ → ℚ

/-- Class constant `ScrollFlagArea.WIDTH = 12`. -/
def WIDTH : ℚ := 12

/-- Class constant `ScrollFlagArea.FLAGS_DX = 4`. -/
def FLAGS_DX : ℚ := 4

/-- Class constant `ScrollFlagArea.FLAGS_DY = 2`. -/
def FLAGS_DY : ℚ := 2

/-- `get_scrollbar_value_height`: `vsb.maximum() - vsb.minimum() + vsb.pageStep()`. -/
def get_scrollbar_value_height (s : ScrollFlagArea) : ℚ :=
  s.maximum - s.minimum + s.pageStep

/-- `get_scale_factor`: `get_scrollbar_position_height() /
get_scrollbar_value_height()`, a bare Python division with no guard, hence
`none` (a raised `ZeroDivisionError`) when the value span is zero. -/
def get_scale_factor (s : ScrollFlagArea) : Option ℚ :=
  pydiv s.grooveHeight (get_scrollbar_value_height s)

/-- `value_to_position(y)`: `(y - vsb.minimum()) * get_scale_factor() + offset`. -/
def value_to_position (s : ScrollFlagArea) (y : ℚ) : Option ℚ :=
  (get_scale_factor s).map (fun c => (y - s.minimum) * c + s.offset)

/-- `position_to_value(y)`: `vsb.minimum() + max([0, (y - offset) / get_scale_factor()])`. -/
def position_to_value (s : ScrollFlagArea) (y : ℚ) : Option ℚ :=
  (get_scale_factor s).bind (fun c =>
    (pydiv (y - s.offset) c).map (fun q => s.minimum + max 0 q))

/-- `make_flag_qrect(value)`: when the scrollbar is visible, a flag rectangle
at `value_to_position(value + 0.5)`; otherwise a rectangle centered on the
middle of the line's rendered block geometry. -/
def make_flag_qrect (s : ScrollFlagArea) (value : ℕ) : Option Rect :=
  if s.slider then
    (value_to_position s ((value : ℚ) + 1/2)).map (fun position =>
      ⟨FLAGS_DX / 2, position - FLAGS_DY / 2, WIDTH - FLAGS_DX, FLAGS_DY⟩)
  else
    let top := s.blockTop value
    let bottom := top + s.blockHeight value
    let middle := (top + bottom) / 2
    some ⟨FLAGS_DX / 2, middle - FLAGS_DY / 2, WIDTH - FLAGS_DX, FLAGS_DY⟩

/-- `make_slider_range(cursor_pos)`: the slider range indicator rectangle.
Its height is `value_to_position(vsb.pageStep())` and its vertical position is
`max(min_ypos, min(max_ypos, cursor_pos.y() - slider_height/2))` with
`min_ypos = offset` and `max_ypos = groove_height + offset - slider_height`. -/
def make_slider_range (s : ScrollFlagArea) (cursorY : ℚ) : Option Rect :=
  (value_to_position s s.pageStep).map (fun slider_height =>
    let min_ypos := s.offset
    let max_ypos := s.grooveHeight + s.offset - slider_height
    let slider_y := max min_ypos (min max_ypos (cursorY - slider_height / 2))
    ⟨1, slider_y, WIDTH - 2, slider_height⟩)

/-- The mark colors `paintEvent` reads from the editor, as opaque color
handles. -/
structure EditorColors where
  warning_color : ℕ
  error_color : ℕ
  todo_color : ℕ
  breakpoint_color : ℕ

/-- A block's `userData()`: `code_analysis` is the list of
`(message, error)` diagnostics, plus the `todo` and `breakpoint` flags. -/
structure BlockData where
  code_analysis : List (String × Bool)
  todo : Bool
  breakpoint : Bool

/-- The color-selection loop of `paintEvent` for one block's diagnostics:
start from `warning_color`, switch to `error_color` and break at the first
entry whose `error` component is true. -/
def code_analysis_color (colors : EditorColors) : List (String × Bool) → ℕ
  | [] => colors.warning_color
  | (_, error) :: rest =>
      if error then colors.error_color else code_analysis_color colors rest

/-- The sequence of mark colors `paintEvent` draws for one block, in draw
order: a block with no user data draws nothing; otherwise one diagnostics
mark when `data.code_analysis` is non-empty (Python truthiness of the list),
then a todo mark when `data.todo`, then a breakpoint mark when
`data.breakpoint`. -/
def marksForBlock (colors : EditorColors) : Option BlockData → List ℕ
  | none => []
  | some data =>
      (if data.code_analysis = [] then []
       else [code_analysis_color colors data.code_analysis])
      ++ (if data.todo then [colors.todo_color] else [])
      ++ (if data.breakpoint then [colors.breakpoint_color] else [])

/-- The shell widget state relevant to client binding: the stored
`self.ipyclient` reference and the list of client handles whose
`exit_callback` is connected to the `exit_requested` signal, in connection
order (Qt's `connect` appends a connection and nothing here disconnects). -/
structure ShellState where
  ipyclient : Option ℕ
  exit_connections : List ℕ
  deriving DecidableEq, Repr

/-- `set_ipyclient(ipyclient)`: overwrite `self.ipyclient` and connect
`exit_requested` to the client's `exit_callback`. -/
def set_ipyclient (s : ShellState) (c : ℕ) : ShellState :=
  { ipyclient := some c, exit_connections := s.exit_connections ++ [c] }

/-- The reply of the `QMessageBox.question` confirmation dialog. -/
inductive Reply where
  | yes
  | no
  deriving DecidableEq, Repr

/-- `reset_namespace`: the backend is embedded as the list of directives sent
through `execute`; on `Yes` exactly one `execute("%reset -f")` is issued, on
`No` nothing happens. -/
def reset_namespace (sent : List String) (reply : Reply) : List String :=
  match reply with
  | Reply.yes => sent ++ ["%reset -f"]
  | Reply.no => sent

/-- Concrete paint-time state matching the spec's end-to-end example
(`min = 0`, `max = 80`, `pageStep = 20`, groove height `500`), with a nonzero
groove offset. -/
def csA : ScrollFlagArea :=
  { slider := true, offset := 7, grooveHeight := 500, minimum := 0,
    maximum := 80, pageStep := 20,
    blockTop := fun n => 14 * (n : ℚ), blockHeight := fun _ => 14 }

/-- Concrete paint-time state with the spec's end-to-end scrollbar range and
a groove offset of 10, exhibiting the slider-range height discrepancy. -/
def csB : ScrollFlagArea :=
  { slider := true, offset := 10, grooveHeight := 500, minimum := 0,
    maximum := 80, pageStep := 20,
    blockTop := fun n => 14 * (n : ℚ), blockHeight := fun _ => 14 }

/-- Concrete paint-time state of a document slightly over one page
(`max = 1`, `pageStep = 10`) whose slider range indicator is taller than the
scrollbar groove. -/
def csC : ScrollFlagArea :=
  { slider := true, offset := 10, grooveHeight := 100, minimum := 0,
    maximum := 1, pageStep := 10,
    blockTop := fun n => 14 * (n : ℚ), blockHeight := fun _ => 14 }

/-- Concrete paint-time state with a zero scrollbar value span
(`maximum = minimum` and `pageStep = 0`) while the scrollbar is visible. -/
def csZero : ScrollFlagArea :=
  { slider := true, offset := 0, grooveHeight := 500, minimum := 0,
    maximum := 0, pageStep := 0,
    blockTop := fun n => 14 * (n : ℚ), blockHeight := fun _ => 14 }

/-- Concrete paint-time state with a hidden scrollbar. -/
def csU : ScrollFlagArea :=
  { slider := false, offset := 0, grooveHeight := 0, minimum := 0,
    maximum := 0, pageStep := 0,
    blockTop := fun n => 14 * (n : ℚ), blockHeight := fun _ => 14 }

/-- Same hidden-scrollbar state as `csU` but with entirely different
scrollbar range parameters and groove geometry. -/
def csU2 : ScrollFlagArea :=
  { slider := false, offset := 3, grooveHeight := 250, minimum := 5,
    maximum := 99, pageStep := 10,
    blockTop := fun n => 14 * (n : ℚ), blockHeight := fun _ => 14 }

/-- Closed form of `value_to_position` when the scrollbar value span is
nonzero: the division succeeds and yields the linear map of the claim. -/
lemma value_to_position_eq (s : ScrollFlagArea)
    (hspan : get_scrollbar_value_height s ≠ 0) (y : ℚ) :
    value_to_position s y =
      some ((y - s.minimum) * (s.grooveHeight / get_scrollbar_value_height s)
        + s.offset) := by
  simp [value_to_position, get_scale_factor, pydiv, hspan]

/-- Closed form of `position_to_value` when both divisions succeed, which
holds whenever the groove height and the value span are positive. -/
lemma position_to_value_eq (s : ScrollFlagArea) (hg : 0 < s.grooveHeight)
    (hspan : 0 < get_scrollbar_value_height s) (y : ℚ) :
    position_to_value s y =
      some (s.minimum +
        max 0 ((y - s.offset) / (s.grooveHeight / get_scrollbar_value_height s))) := by
  have h1 : get_scrollbar_value_height s ≠ 0 := ne_of_gt hspan
  have h2 : s.grooveHeight / get_scrollbar_value_height s ≠ 0 :=
    ne_of_gt (div_pos hg hspan)
  simp [position_to_value, get_scale_factor, pydiv, h1, h2]

/-- C1: in scaled mode, `value_to_position` maps a value `v` to
`(v - minimum) * scale + offset` with
`scale = grooveHeight / (maximum - minimum + pageStep)`; the flag rectangle
of `make_flag_qrect` is vertically centered at the image of `v + 0.5`; and
with `minimum = 0`, `maximum = 80`, `pageStep = 20` and groove height `500`
the scale factor is `5` and line `50` maps to `(50.5 - 0) * 5 + offset`. -/
theorem value_to_position_scaled_formula (s : ScrollFlagArea)
    (hs : s.slider = true) (hspan : get_scrollbar_value_height s ≠ 0)
    (v : ℚ) (n : ℕ) :
    value_to_position s v =
      some ((v - s.minimum) *
        (s.grooveHeight / (s.maximum - s.minimum + s.pageStep)) + s.offset) ∧
    (make_flag_qrect s n).map (fun r => r.y + r.height / 2) =
      value_to_position s ((n : ℚ) + 1/2) ∧
    (s.minimum = 0 → s.maximum = 80 → s.pageStep = 20 → s.grooveHeight = 500 →
      s.grooveHeight / (s.maximum - s.minimum + s.pageStep) = 5 ∧
      value_to_position s ((50 : ℚ) + 1/2) = some ((101/2) * 5 + s.offset)) := by
  refine ⟨value_to_position_eq s hspan v, ?_, ?_⟩
  · simp only [make_flag_qrect, hs, if_true, value_to_position_eq s hspan,
      Option.map_some', Option.some.injEq, FLAGS_DY, get_scrollbar_value_height]
    ring
  · intro h0 h80 h20 h500
    rw [value_to_position_eq s hspan]
    simp only [get_scrollbar_value_height, h0, h80, h20, h500,
      Option.some.injEq]
    norm_num

/-- Witness for C1 at the spec's end-to-end state `csA`. -/
theorem value_to_position_scaled_formula_witness :
    value_to_position csA ((50 : ℚ) + 1/2) = some ((101/2) * 5 + csA.offset) := by
  have h := value_to_position_scaled_formula csA rfl
    (by norm_num [get_scrollbar_value_height, csA]) 50 50
  exact (h.2.2 rfl rfl rfl rfl).2

/-- C2: in scaled mode with positive groove height and positive value span,
`position_to_value` inverts `value_to_position` exactly in rational
arithmetic for every value between the scrollbar minimum and maximum. -/
theorem position_value_roundtrip (s : ScrollFlagArea) (hg : 0 < s.grooveHeight)
    (hspan : 0 < get_scrollbar_value_height s) (v : ℚ)
    (hmin : s.minimum ≤ v) (hmax : v ≤ s.maximum) :
    (value_to_position s v).bind (position_to_value s) = some v := by
  have h1 : get_scrollbar_value_height s ≠ 0 := ne_of_gt hspan
  have hc : (0:ℚ) < s.grooveHeight / get_scrollbar_value_height s :=
    div_pos hg hspan
  rw [value_to_position_eq s h1]
  show position_to_value s _ = some v
  rw [position_to_value_eq s hg hspan]
  simp only [Option.some.injEq]
  rw [add_sub_cancel_right, mul_div_cancel_right₀ _ (ne_of_gt hc),
    max_eq_right (sub_nonneg.mpr hmin)]
  ring

/-- Witness for C2 at the state `csA` and value `50`. -/
theorem position_value_roundtrip_witness :
    (value_to_position csA 50).bind (position_to_value csA) = some (50 : ℚ) :=
  position_value_roundtrip csA (by norm_num [csA])
    (by norm_num [get_scrollbar_value_height, csA]) 50
    (by norm_num [csA]) (by norm_num [csA])

/-- C3 evaluation: at the zero-value-span state `csZero` the scale factor
computation divides by zero and raises (`none`), and the mappings built on
it propagate the failure rather than falling back to unscaled placement. -/
theorem get_scale_factor_zero_span_raises :
    get_scrollbar_value_height csZero = 0 ∧
    get_scale_factor csZero = none ∧
    value_to_position csZero 0 = none ∧
    make_flag_qrect csZero 0 = none := by
  refine ⟨by norm_num [get_scrollbar_value_height, csZero], ?_, ?_, ?_⟩
  · norm_num [get_scale_factor, pydiv, get_scrollbar_value_height, csZero]
  · norm_num [value_to_position, get_scale_factor, pydiv,
      get_scrollbar_value_height, csZero]
  · norm_num [make_flag_qrect, value_to_position, get_scale_factor, pydiv,
      get_scrollbar_value_height, csZero]

/-- C4: with the scrollbar hidden, the flag rectangle of `make_flag_qrect`
is vertically centered at the block's translated top plus half its height,
and the result does not depend on the scrollbar range parameters. -/
theorem make_flag_qrect_unscaled_centered (s t : ScrollFlagArea)
    (hs : s.slider = false) (ht : t.slider = false)
    (htop : t.blockTop = s.blockTop) (hh : t.blockHeight = s.blockHeight)
    (L : ℕ) :
    (make_flag_qrect s L).map (fun r => r.y + r.height / 2) =
      some (s.blockTop L + s.blockHeight L / 2) ∧
    make_flag_qrect t L = make_flag_qrect s L := by
  constructor
  · simp only [make_flag_qrect, hs, Bool.false_eq_true, if_false,
      Option.map_some', Option.some.injEq, FLAGS_DY]
    ring
  · simp only [make_flag_qrect, hs, ht, Bool.false_eq_true, if_false,
      htop, hh]

/-- Witness for C4: two hidden-scrollbar states with the same block geometry
but different scrollbar ranges give the same centered flag rectangle. -/
theorem make_flag_qrect_unscaled_witness :
    (make_flag_qrect csU 3).map (fun r => r.y + r.height / 2) =
      some (csU.blockTop 3 + csU.blockHeight 3 / 2) ∧
    make_flag_qrect csU2 3 = make_flag_qrect csU 3 :=
  make_flag_qrect_unscaled_centered csU csU2 rfl rfl rfl rfl 3

/-- C5 evaluation: at the spec's end-to-end scrollbar range with groove
offset `10`, the slider range rectangle's height is
`value_to_position(pageStep) = (pageStep - minimum) * scale + offset = 110`,
while one page-step scaled is `pageStep * scale = 100`: the code's height
contains the groove offset (and the scrollbar minimum) on top of the scaled
page-step, contradicting its own comment that the height corresponds to the
visible part of the file. -/
theorem make_slider_range_height_bug :
    (make_slider_range csB 0).map Rect.height = some 110 ∧
    csB.pageStep * (csB.grooveHeight / get_scrollbar_value_height csB) = 100 ∧
    (110 : ℚ) ≠ 100 := by
  refine ⟨?_, ?_, by norm_num⟩
  · norm_num [make_slider_range, value_to_position, get_scale_factor, pydiv,
      get_scrollbar_value_height, csB, max_def, min_def]
  · norm_num [get_scrollbar_value_height, csB]

/-- C6 counterexample: at the state `csC` (document slightly over one page,
groove offset `10`) the indicator height `1110/11` exceeds the groove height
`100`, the lower clamp wins, and the returned vertical position `10` violates
the claimed upper bound `grooveHeight + offset - height = 100/11`. -/
theorem make_slider_range_clamp_violation :
    make_slider_range csC 0 = some ⟨1, 10, 10, 1110/11⟩ ∧
    ¬ ((10 : ℚ) ≤ csC.grooveHeight + csC.offset - 1110/11) := by
  constructor
  · norm_num [make_slider_range, value_to_position, get_scale_factor, pydiv,
      get_scrollbar_value_height, csC, WIDTH, Rect.mk.injEq, max_def, min_def]
  · norm_num [csC]

/-- C6 amended: the slider rectangle's vertical position is always at least
`offset`, and it is at most `grooveHeight + offset - height` whenever the
indicator height does not exceed the groove height; when the indicator is
taller than the groove the lower clamp wins and the upper bound can fail. -/
theorem make_slider_range_clamped_amended (s : ScrollFlagArea) (cursorY : ℚ)
    (r : Rect) (h : make_slider_range s cursorY = some r) :
    s.offset ≤ r.y ∧
    (r.height ≤ s.grooveHeight →
      r.y ≤ s.grooveHeight + s.offset - r.height) := by
  unfold make_slider_range at h
  cases hv : value_to_position s s.pageStep with
  | none => rw [hv] at h; simp at h
  | some sh =>
    rw [hv, Option.map_some'] at h
    have hr := (Option.some.inj h).symm
    subst hr
    refine ⟨le_max_left _ _, fun hle => ?_⟩
    have hle2 : sh ≤ s.grooveHeight := hle
    have hb : s.offset ≤ s.grooveHeight + s.offset - sh := by linarith
    exact max_le hb (min_le_left _ _)

/-- Witness for C6 amended at state `csA` with the cursor at `250`. -/
theorem make_slider_range_clamped_witness :
    (7 : ℚ) ≤ 393/2 ∧ (393/2 : ℚ) ≤ 500 + 7 - 107 := by
  have h := make_slider_range_clamped_amended csA 250 ⟨1, 393/2, 10, 107⟩ (by
    norm_num [make_slider_range, value_to_position, get_scale_factor, pydiv,
      get_scrollbar_value_height, csA, WIDTH, Rect.mk.injEq, max_def, min_def])
  exact ⟨h.1, h.2 (by norm_num [csA])⟩

/-- Color chosen by the diagnostics loop: `error_color` exactly when some
entry of the list is flagged as an error, else `warning_color`. -/
lemma code_analysis_color_eq (colors : EditorColors)
    (l : List (String × Bool)) :
    code_analysis_color colors l =
      if l.any (fun p => p.2) then colors.error_color
      else colors.warning_color := by
  induction l with
  | nil => simp [code_analysis_color]
  | cons hd tl ih =>
    obtain ⟨m, e⟩ := hd
    cases e
    · cases h2 : tl.any (fun p => p.2) <;> simp [code_analysis_color, ih, h2]
    · simp [code_analysis_color]

/-- C7: a block whose diagnostics list is non-empty gets exactly one
diagnostics mark, in the error color when at least one entry is flagged as an
error and the warning color otherwise, followed (in draw order) by an
independent todo mark when the todo flag is set and an independent breakpoint
mark when the breakpoint flag is set. -/
theorem paint_marks_per_line (colors : EditorColors) (data : BlockData)
    (h : data.code_analysis ≠ []) :
    marksForBlock colors (some data) =
      [if data.code_analysis.any (fun p => p.2) then colors.error_color
       else colors.warning_color]
      ++ (if data.todo then [colors.todo_color] else [])
      ++ (if data.breakpoint then [colors.breakpoint_color] else []) := by
  simp [marksForBlock, h, code_analysis_color_eq]

/-- Witness for C7 on a block with one error diagnostic and a todo flag. -/
theorem paint_marks_per_line_witness :
    marksForBlock ⟨10, 20, 30, 40⟩ (some ⟨[("m", true)], true, false⟩) =
      [if ([("m", true)] : List (String × Bool)).any (fun p => p.2) then 20
       else 10]
      ++ (if true then [(30 : ℕ)] else []) ++ (if false then [(40 : ℕ)] else []) :=
  paint_marks_per_line ⟨10, 20, 30, 40⟩ ⟨[("m", true)], true, false⟩
    (List.cons_ne_nil _ _)

/-- C8: `reset_namespace` leaves the backend untouched when the confirmation
is declined, and sends exactly one `%reset -f` directive when accepted. -/
theorem reset_namespace_directive (sent : List String) :
    reset_namespace sent Reply.no = sent ∧
    reset_namespace sent Reply.yes = sent ++ ["%reset -f"] :=
  ⟨rfl, rfl⟩

/-- C9 counterexample: binding client `1` and then client `2` stores `2` as
the reference, but the `exit_requested` connection list is `[1, 2]`, not
`[2]`: the first client's exit handler remains connected. -/
theorem set_ipyclient_rebind_counterexample :
    (set_ipyclient (set_ipyclient ⟨none, []⟩ 1) 2).ipyclient = some 2 ∧
    (set_ipyclient (set_ipyclient ⟨none, []⟩ 1) 2).exit_connections = [1, 2] ∧
    ([1, 2] : List ℕ) ≠ [2] :=
  ⟨rfl, rfl, by decide⟩

/-- C9 amended: after `set_ipyclient(c1)` then `set_ipyclient(c2)` the stored
reference is `c2`, but the exit-requested signal remains connected to both
clients' exit handlers, in connection order. -/
theorem set_ipyclient_rebind_amended (s : ShellState) (a b : ℕ) :
    (set_ipyclient (set_ipyclient s a) b).ipyclient = some b ∧
    (set_ipyclient (set_ipyclient s a) b).exit_connections =
      s.exit_connections ++ [a, b] := by
  simp [set_ipyclient]

/-- C10: with positive groove height and positive value span,
`position_to_value` is monotone non-decreasing in the pixel argument, its
result is at least the scrollbar minimum, and every pixel at or above the
groove top (`y ≤ offset`) maps exactly to the minimum. -/
theorem position_to_value_monotone (s : ScrollFlagArea)
    (hg : 0 < s.grooveHeight) (hspan : 0 < get_scrollbar_value_height s) :
    (∀ y1 y2 v1 v2 : ℚ, y1 ≤ y2 → position_to_value s y1 = some v1 →
      position_to_value s y2 = some v2 → v1 ≤ v2) ∧
    (∀ y v : ℚ, position_to_value s y = some v → s.minimum ≤ v) ∧
    (∀ y : ℚ, y ≤ s.offset → position_to_value s y = some s.minimum) := by
  have hc : (0:ℚ) < s.grooveHeight / get_scrollbar_value_height s :=
    div_pos hg hspan
  refine ⟨?_, ?_, ?_⟩
  · intro y1 y2 v1 v2 hy h1 h2
    rw [position_to_value_eq s hg hspan] at h1 h2
    have e1 := Option.some.inj h1
    have e2 := Option.some.inj h2
    subst e1
    subst e2
    have hdiv : (y1 - s.offset) / (s.grooveHeight / get_scrollbar_value_height s)
        ≤ (y2 - s.offset) / (s.grooveHeight / get_scrollbar_value_height s) :=
      div_le_div_of_nonneg_right (by linarith) hc.le
    exact add_le_add_left (max_le_max le_rfl hdiv) _
  · intro y v h
    rw [position_to_value_eq s hg hspan] at h
    have e := Option.some.inj h
    subst e
    exact le_add_of_nonneg_right (le_max_left 0 _)
  · intro y hy
    rw [position_to_value_eq s hg hspan]
    have hq : (y - s.offset) / (s.grooveHeight / get_scrollbar_value_height s)
        ≤ 0 :=
      div_nonpos_iff.mpr (Or.inr ⟨by linarith, hc.le⟩)
    rw [max_eq_left hq, add_zero]

/-- Witness for C10: at state `csA` the groove top pixel `7` maps to the
scrollbar minimum. -/
theorem position_to_value_monotone_witness :
    position_to_value csA 7 = some (0 : ℚ) := by
  have h := position_to_value_monotone csA (by norm_num [csA])
    (by norm_num [get_scrollbar_value_height, csA])
  exact h.2.2 7 (by norm_num [csA])
